import Mathlib

/-!
Verification of the MOT test-results analysis pipeline (src/main.py and
src/.ipynb_checkpoints/main-checkpoint.py).

The pipeline works on one pandas DataFrame `df`. We embed a DataFrame as a
`List` of rows, keeping the columns the claims mention. Dates are embedded as
`Int` day numbers; the pandas missing-timestamp marker NaT is `Option.none`.
The pandas date parser `pd.to_datetime` is an external collaborator, so it is
a parameter `parse : String → Option Int` (`none` = the value does not parse).

The central statement of the dedup stage is, in both source files,

  df.sort_values(by="test_date").drop_duplicates(subset="vehicle_id",
                                                 keep="first", inplace=True)

In pandas, `sort_values` (without inplace) returns a NEW DataFrame, and
`drop_duplicates(..., inplace=True)` mutates that temporary copy and returns
None. The working table `df` is therefore left untouched. We embed both the
value computed on the temporary copy (`dedupExpr`) and the net effect of the
statement on the working table (`dedupStatement`).
-/

namespace MOT

/-- One row of the primary test-results table after date normalisation:
`test_date` is a parsed timestamp (day number), `first_use_date` is a
timestamp or the NaT marker (`none`). The remaining columns the claims
mention are carried as they are loaded. -/
structure Row where
  test_id : Nat
  vehicle_id : Nat
  test_date : Int
  first_use_date : Option Int
  test_type : String
  test_result : String
  test_class_id : Int
  make : String
  model : String
deriving DecidableEq

/-- One raw row before date normalisation: both date columns are still the
textual values read from the delimited file. -/
structure RawRow where
  test_id : Nat
  vehicle_id : Nat
  test_date : String
  first_use_date : String
  test_type : String
  test_result : String
  test_class_id : Int
  make : String
  model : String
deriving DecidableEq

/-- Date normalisation of one row, from src/main.py lines 16 to 17:

  df.test_date = pd.to_datetime(df.test_date)
  df.first_use_date = pd.to_datetime(df.first_use_date, errors=coerce)

`pd.to_datetime` without an errors argument uses the default raise policy:
an unparsable `test_date` value raises, which we embed as `none` for the
whole row (the run aborts). For `first_use_date`, errors=coerce turns an
unparsable value into NaT, embedded as storing `parse r.first_use_date`
directly (its `none` is the NaT marker). -/
def normalizeRow (parse : String → Option Int) (r : RawRow) : Option Row :=
  (parse r.test_date).map fun d =>
    { test_id := r.test_id, vehicle_id := r.vehicle_id, test_date := d,
      first_use_date := parse r.first_use_date,
      test_type := r.test_type, test_result := r.test_result,
      test_class_id := r.test_class_id, make := r.make, model := r.model }

/-- The Type Normalizer applied to the whole table: column-wise application
of `pd.to_datetime` to the two date columns. A raise on any `test_date`
value aborts the whole stage (`none`). -/
def normalizeDates (parse : String → Option Int) (t : List RawRow) :
    Option (List Row) :=
  t.mapM (normalizeRow parse)

/-- The Filter Stage as written in src/main.py line 32:
`df = df[df.test_type == "NT"]`. This file applies only the test-type
predicate; it never filters on `test_class_id`. -/
def filterStage_main (t : List Row) : List Row :=
  t.filter fun r => r.test_type == "NT"

/-- The Filter Stage as written in src/.ipynb_checkpoints/main-checkpoint.py
lines 42 and 45: `df = df[df.test_type == "NT"]` followed by
`df = df[df.test_class_id == 4]`. -/
def filterStage_checkpoint (t : List Row) : List Row :=
  (t.filter fun r => r.test_type == "NT").filter fun r => r.test_class_id == 4

/-- The sort key of `df.sort_values(by="test_date")`: comparison of the
`test_date` column. -/
def dateLE (a b : Row) : Prop :=
  a.test_date ≤ b.test_date

instance : DecidableRel dateLE := fun a b =>
  inferInstanceAs (Decidable (a.test_date ≤ b.test_date))

instance : IsTotal Row dateLE :=
  ⟨fun a b => Int.le_total a.test_date b.test_date⟩

instance : IsTrans Row dateLE :=
  ⟨fun _ _ _ hab hbc => le_trans hab hbc⟩

/-- `df.sort_values(by="test_date")`: a sort of the rows by `test_date`,
returning a new table. We embed it as a stable sort; the source relies on no
particular order among equal dates (the spec flags the tie-break as a choice
the implementer documents). -/
def sort_values_by_test_date (t : List Row) : List Row :=
  t.insertionSort dateLE

/-- Helper for `drop_duplicates(subset="vehicle_id", keep="first")`:
scans the rows in order and keeps a row only when its `vehicle_id` has not
been seen before. -/
def drop_dup_aux (seen : List Nat) : List Row → List Row
  | [] => []
  | r :: rest =>
    if r.vehicle_id ∈ seen then drop_dup_aux seen rest
    else r :: drop_dup_aux (r.vehicle_id :: seen) rest

/-- `drop_duplicates(subset="vehicle_id", keep="first")`: keeps the first
occurrence of every `vehicle_id`, preserving row order. -/
def drop_duplicates_vehicle_id (t : List Row) : List Row :=
  drop_dup_aux [] t

/-- The value the dedup expression computes on the temporary copy made by
`sort_values`: sort by `test_date`, then keep the first row per
`vehicle_id`. This is the deduplication the source comments describe. -/
def dedupExpr (t : List Row) : List Row :=
  drop_duplicates_vehicle_id (sort_values_by_test_date t)

/-- The net effect of the dedup statement (src/main.py line 60) on the
working table: `sort_values` returns a fresh copy, `drop_duplicates` with
inplace=True mutates only that copy and returns None, and the copy is bound
to nothing. `df` itself is unchanged. -/
def dedupStatement (t : List Row) : List Row :=
  let sortedCopy := sort_values_by_test_date t
  let _dedupedCopy := drop_duplicates_vehicle_id sortedCopy
  t

/-- `df.vehicle_id.nunique()`: the number of distinct `vehicle_id` values. -/
def nunique_vehicle_id (t : List Row) : Nat :=
  ((t.map Row.vehicle_id).dedup).length

/-- src/main.py line 44:
`num_duplicate_vehicle_ids = len(df) - df.vehicle_id.nunique()`. -/
def num_duplicate_vehicle_ids (t : List Row) : Nat :=
  t.length - nunique_vehicle_id t

/-- The per-row pass label, src/main.py line 40:
`lambda result_code: 1 if result_code == "P" else 0`. -/
def test_result_passed (result_code : String) : Nat :=
  if result_code = "P" then 1 else 0

/-- The derived `test_result_passed` column:
`df["test_result_passed"] = df.test_result.apply(lambda ...)`. -/
def derive_test_result_passed (t : List Row) : List Nat :=
  t.map fun r => test_result_passed r.test_result

/-- Pandas timestamp subtraction on nullable values: if either operand is
the NaT marker the difference is NaT. -/
def td_sub (a b : Option Int) : Option Int :=
  match a, b with
  | some x, some y => some (x - y)
  | _, _ => none

/-- src/.ipynb_checkpoints/main-checkpoint.py line 74:
`df["vehicle_age"] = df["test_date"] - df["first_use_date"]`.
`test_date` is non-null after normalisation; `first_use_date` may be NaT. -/
def vehicle_age (r : Row) : Option Int :=
  td_sub (some r.test_date) r.first_use_date

/-- `series.mean()` on a column of counts: pandas returns NaN on an empty
series (embedded as `none`), otherwise the rational sum / length. -/
def series_mean (xs : List Nat) : Option Rat :=
  if xs.isEmpty then none else some ((xs.sum : Rat) / (xs.length : Rat))

/-- `df.test_result_passed.mean()`, src/main.py line 42. -/
def pass_rate (t : List Row) : Option Rat :=
  series_mean (derive_test_result_passed t)

/-- Test fixture: a class-4 normal-test row with the given identifiers,
test date and result code. -/
def mkRow (tid vid : Nat) (date : Int) (result : String) : Row :=
  { test_id := tid, vehicle_id := vid, test_date := date,
    first_use_date := none, test_type := "NT", test_result := result,
    test_class_id := 4, make := "FORD", model := "FIESTA" }

/-- Fixture for C1: two rows sharing vehicle_id 1, different test dates. -/
def exC1 : List Row :=
  [mkRow 11 1 20220110 "F", mkRow 12 1 20220125 "P"]

/-- Fixture for C3: two rows sharing vehicle_id 2. -/
def exC3 : List Row :=
  [mkRow 21 2 20220201 "F", mkRow 22 2 20220220 "P"]

/-- Fixture for C4, the scenario of the spec: three rows for vehicle_id 7
with dates 2022-03-01 (fail), 2022-03-15 (pass), 2022-04-01 (pass). -/
def exC4 : List Row :=
  [mkRow 71 7 20220301 "F", mkRow 72 7 20220315 "P", mkRow 73 7 20220401 "P"]

/- Lemmas about `drop_dup_aux`, used for the idempotence claim. -/

theorem drop_dup_aux_sublist (seen : List Nat) (l : List Row) :
    List.Sublist (drop_dup_aux seen l) l := by
  induction l generalizing seen with
  | nil => simp [drop_dup_aux]
  | cons r rest ih =>
    by_cases h : r.vehicle_id ∈ seen
    · simp only [drop_dup_aux, if_pos h]
      exact (ih seen).trans (List.sublist_cons_self r rest)
    · simp only [drop_dup_aux, if_neg h]
      exact (ih (r.vehicle_id :: seen)).cons₂ r

theorem drop_dup_aux_keys (seen : List Nat) (l : List Row) :
    ((drop_dup_aux seen l).map Row.vehicle_id).Nodup ∧
      ∀ r ∈ drop_dup_aux seen l, r.vehicle_id ∉ seen := by
  induction l generalizing seen with
  | nil => simp [drop_dup_aux]
  | cons r rest ih =>
    by_cases h : r.vehicle_id ∈ seen
    · simpa only [drop_dup_aux, if_pos h] using ih seen
    · obtain ⟨hnd, hsn⟩ := ih (r.vehicle_id :: seen)
      simp only [drop_dup_aux, if_neg h, List.map_cons, List.nodup_cons,
        List.mem_cons, List.mem_map]
      refine ⟨⟨?_, hnd⟩, fun s hs => ?_⟩
      · rintro ⟨s, hs, hvs⟩
        exact (hsn s hs) (by simp [hvs])
      · rcases hs with hs | hs
        · exact hs ▸ h
        · intro hmem
          exact (hsn s hs) (by simp [hmem])

theorem drop_dup_aux_eq_self (seen : List Nat) (l : List Row)
    (hnd : (l.map Row.vehicle_id).Nodup)
    (hdis : ∀ r ∈ l, r.vehicle_id ∉ seen) :
    drop_dup_aux seen l = l := by
  induction l generalizing seen with
  | nil => rfl
  | cons r rest ih =>
    simp only [List.map_cons, List.nodup_cons, List.mem_map] at hnd
    have hr : r.vehicle_id ∉ seen := hdis r (List.mem_cons_self r rest)
    simp only [drop_dup_aux, if_neg hr]
    congr 1
    refine ih (r.vehicle_id :: seen) hnd.2 fun s hs => ?_
    simp only [List.mem_cons]
    rintro (h | h)
    · exact hnd.1 ⟨s, hs, h⟩
    · exact hdis s (List.mem_cons_of_mem r hs) h

theorem sorted_drop_dup_aux (seen : List Nat) (l : List Row)
    (h : l.Sorted dateLE) : (drop_dup_aux seen l).Sorted dateLE :=
  h.sublist (drop_dup_aux_sublist seen l)

/-- Claim C1: the claim says that after the Deduplication Engine runs the
`vehicle_id` values of the working table are pairwise distinct. The code
contradicts this (and its own comments): the dedup statement mutates only
the temporary copy returned by `sort_values`, so the working table still
holds both rows of the duplicated vehicle. This theorem evaluates the code
at the failing input `exC1`. -/
theorem C1_dedup_statement_leaves_duplicate_vehicle_ids :
    dedupStatement exC1 = exC1 ∧
      ¬ List.Pairwise (fun a b : Row => a.vehicle_id ≠ b.vehicle_id)
        (dedupStatement exC1) :=
  ⟨rfl, by decide⟩

/-- Claim C2: the dedup statement leaves the working table completely
unchanged — every row, duplicates included, is still present in its
original order after the statement executes. -/
theorem C2_dedup_statement_is_identity (t : List Row) :
    dedupStatement t = t :=
  rfl

/-- Claim C3: the claim says the reported removed-row count
`len(df) - df.vehicle_id.nunique()` equals the number of rows the dedup
stage discards. On `exC3` (two rows, one vehicle) the report is 1 while the
statement discards 0 rows, because the drop happens on a temporary copy. -/
theorem C3_reported_count_differs_from_discarded :
    num_duplicate_vehicle_ids exC3 = 1 ∧
      exC3.length - (dedupStatement exC3).length = 0 := by
  constructor
  · decide
  · rfl

/-- Claim C4: on the spec scenario (three rows for vehicle 7, dates
2022-03-01 fail, 2022-03-15 pass, 2022-04-01 pass) the claim says the dedup
output is exactly the 2022-03-01 row with 2 rows discarded. The code leaves
all three rows in the working table and discards none; only the discarded
temporary copy holds the single earliest row. -/
theorem C4_scenario_vehicle7 :
    dedupStatement exC4 = exC4 ∧
      exC4.length - (dedupStatement exC4).length = 0 ∧
      dedupExpr exC4 = [mkRow 71 7 20220301 "F"] := by
  refine ⟨rfl, rfl, ?_⟩
  decide

/-- Claim C9: the Deduplication Engine (sort by `test_date`, then keep the
first row of each `vehicle_id`) is idempotent: applied to its own output it
returns that output unchanged. -/
theorem C9_dedup_idempotent (t : List Row) :
    dedupExpr (dedupExpr t) = dedupExpr t := by
  have hs : (dedupExpr t).Sorted dateLE :=
    sorted_drop_dup_aux [] _ (List.sorted_insertionSort dateLE t)
  have hnd : ((dedupExpr t).map Row.vehicle_id).Nodup :=
    (drop_dup_aux_keys [] _).1
  show drop_duplicates_vehicle_id (sort_values_by_test_date (dedupExpr t)) =
    dedupExpr t
  rw [show sort_values_by_test_date (dedupExpr t) = dedupExpr t from
    hs.insertionSort_eq]
  exact drop_dup_aux_eq_self [] _ hnd (by simp)

/-- Fixture for C5: a normal-test row whose class is 7, not 4. -/
def exC5 : Row :=
  { test_id := 51, vehicle_id := 5, test_date := 20220501,
    first_use_date := none, test_type := "NT", test_result := "P",
    test_class_id := 7, make := "FORD", model := "FIESTA" }

/-- Claim C5 counterexample: the claim says the Filter Stage returns exactly
the rows with `test_type = "NT"` and `test_class_id = 4`. The Filter Stage
of src/main.py keeps a class-7 normal-test row, because that file never
filters on `test_class_id`. -/
theorem C5_counterexample_main_has_no_class_filter :
    filterStage_main [exC5] ≠
      ([exC5].filter fun r =>
        decide (r.test_type = "NT" ∧ r.test_class_id = 4)) := by
  decide

/-- Claim C5 (amended): the Filter Stage of the checkpoint file returns
exactly the subset satisfying the conjunction `test_type = "NT"` and
`test_class_id = 4` (an empty table when nothing matches), while the Filter
Stage of src/main.py returns the subset satisfying only
`test_type = "NT"`. -/
theorem C5_filter_stage_subsets (t : List Row) :
    filterStage_checkpoint t =
        (t.filter fun r =>
          decide (r.test_type = "NT" ∧ r.test_class_id = 4)) ∧
      filterStage_main t = (t.filter fun r => decide (r.test_type = "NT")) := by
  constructor
  · unfold filterStage_checkpoint
    rw [List.filter_filter]
    refine List.filter_congr fun r _ => ?_
    by_cases h1 : r.test_type = "NT" <;> by_cases h2 : r.test_class_id = 4 <;>
      simp [h1, h2]
  · refine List.filter_congr fun r _ => ?_
    by_cases h1 : r.test_type = "NT" <;> simp [h1]

/-- Fixture parser for C6: a concrete date parser knowing two dates. -/
def parse0 : String → Option Int := fun s =>
  if s = "2022-03-01" then some 20220301
  else if s = "2015-06-20" then some 20150620
  else none

/-- Fixture for C6: a raw row whose `test_date` does not parse. -/
def rawBad : RawRow :=
  { test_id := 61, vehicle_id := 6, test_date := "not-a-date",
    first_use_date := "2015-06-20", test_type := "NT", test_result := "P",
    test_class_id := 4, make := "FORD", model := "FIESTA" }

/-- Fixture for C6: a raw row with parseable `test_date` and unparsable
`first_use_date`. -/
def rawGood : RawRow :=
  { test_id := 62, vehicle_id := 6, test_date := "2022-03-01",
    first_use_date := "garbled", test_type := "NT", test_result := "P",
    test_class_id := 4, make := "FORD", model := "FIESTA" }

/-- Claim C6 counterexample: the claim says the Type Normalizer turns every
unparsable date value, in both date columns, into the missing marker and
never raises. But `pd.to_datetime(df.test_date)` is called without
errors=coerce, so an unparsable `test_date` raises: on `rawBad` the stage
aborts (`none`) instead of producing a table. -/
theorem C6_counterexample_test_date_raises :
    normalizeDates parse0 [rawBad] = none := by
  decide

/-- The per-row correspondence established by the Type Normalizer:
`test_date` is the parsed value, `first_use_date` is the parse result with
`none` as the NaT marker, and every other column is copied unchanged. -/
def NormalizedFrom (parse : String → Option Int) (r : RawRow) (s : Row) :
    Prop :=
  some s.test_date = parse r.test_date ∧
    s.first_use_date = parse r.first_use_date ∧
    s.test_id = r.test_id ∧ s.vehicle_id = r.vehicle_id ∧
    s.test_type = r.test_type ∧ s.test_result = r.test_result ∧
    s.test_class_id = r.test_class_id ∧ s.make = r.make ∧ s.model = r.model

/-- The row the Type Normalizer produces from a raw row whose `test_date`
parsed to the day number `d`. -/
def normalizedRowAt (parse : String → Option Int) (r : RawRow) (d : Int) :
    Row :=
  { test_id := r.test_id, vehicle_id := r.vehicle_id, test_date := d,
    first_use_date := parse r.first_use_date,
    test_type := r.test_type, test_result := r.test_result,
    test_class_id := r.test_class_id, make := r.make, model := r.model }

/-- Claim C6 (amended): whenever every `test_date` value parses, the Type
Normalizer is total: it returns a table with exactly one output row per
input row, in order, where an unparsable `first_use_date` becomes the
missing marker and no row is dropped or reordered. -/
theorem C6_normalizer_total_when_test_dates_parse
    (parse : String → Option Int) (t : List RawRow)
    (h : ∀ r ∈ t, (parse r.test_date).isSome) :
    ∃ out : List Row, normalizeDates parse t = some out ∧
      List.Forall₂ (NormalizedFrom parse) t out := by
  induction t with
  | nil => exact ⟨[], rfl, List.Forall₂.nil⟩
  | cons r rest ih =>
    obtain ⟨d, hd⟩ :=
      Option.isSome_iff_exists.mp (h r (List.mem_cons_self r rest))
    obtain ⟨out, hout, hall⟩ := ih fun s hs => h s (List.mem_cons_of_mem r hs)
    refine ⟨normalizedRowAt parse r d :: out, ?_, ?_⟩
    · have hrow : normalizeRow parse r = some (normalizedRowAt parse r d) := by
        simp [normalizeRow, normalizedRowAt, hd]
      have hout2 : rest.mapM (normalizeRow parse) = some out := hout
      rw [normalizeDates, List.mapM_cons, hrow, hout2]
      rfl
    · exact List.Forall₂.cons
        ⟨by simp [normalizedRowAt, hd], rfl, rfl, rfl, rfl, rfl, rfl,
          rfl, rfl⟩ hall

/-- Witness for C6: on the concrete one-row table `rawGood`, whose
`test_date` parses and whose `first_use_date` does not, the amended theorem
applies and produces the normalised table. -/
theorem C6_witness :
    (∀ r ∈ [rawGood], (parse0 r.test_date).isSome) ∧
      ∃ out : List Row, normalizeDates parse0 [rawGood] = some out ∧
        List.Forall₂ (NormalizedFrom parse0) [rawGood] out :=
  ⟨by decide,
    C6_normalizer_total_when_test_dates_parse parse0 [rawGood] (by decide)⟩

/-- Claim C7: the derived label equals 1 exactly when `test_result` is the
string "P", and equals 0 for every other result code, with no error. -/
theorem C7_test_result_passed_spec (code : String) :
    (test_result_passed code = 1 ↔ code = "P") ∧
      (code ≠ "P" → test_result_passed code = 0) := by
  by_cases h : code = "P" <;> simp [test_result_passed, h]

/-- Witness for C7 at the concrete non-pass code "PRS". -/
theorem C7_witness :
    ("PRS" : String) ≠ "P" ∧ test_result_passed "PRS" = 0 :=
  ⟨by decide, (C7_test_result_passed_spec "PRS").2 (by decide)⟩

/-- Fixture for C8: a row whose `first_use_date` is the missing marker. -/
def exC8none : Row := mkRow 81 8 20220301 "P"

/-- Fixture for C8: a row with a present `first_use_date`. -/
def exC8some : Row :=
  { mkRow 82 8 20220301 "P" with first_use_date := some 20150620 }

/-- Claim C8: `vehicle_age` is `test_date` minus `first_use_date`, and a
missing `first_use_date` propagates to a missing `vehicle_age` — never an
error, a zero duration or an epoch-based value. -/
theorem C8_vehicle_age_spec (r : Row) :
    (r.first_use_date = none → vehicle_age r = none) ∧
      ∀ f : Int, r.first_use_date = some f →
        vehicle_age r = some (r.test_date - f) := by
  constructor
  · intro h
    simp [vehicle_age, td_sub, h]
  · intro f h
    simp [vehicle_age, td_sub, h]

/-- Witness for C8 at two concrete rows, one with a missing and one with a
present `first_use_date`. -/
theorem C8_witness :
    vehicle_age exC8none = none ∧
      vehicle_age exC8some = some (20220301 - 20150620) :=
  ⟨(C8_vehicle_age_spec exC8none).1 rfl,
    (C8_vehicle_age_spec exC8some).2 20150620 rfl⟩

/-- Claim C10 counterexample: the claim says the pass-rate mean lies in
[0, 1] for every table including the empty one, but on the empty table
pandas returns NaN (`none`): no value in [0, 1] exists. -/
theorem C10_counterexample_empty_table :
    ¬ ∃ m : Rat, pass_rate ([] : List Row) = some m ∧ 0 ≤ m ∧ m ≤ 1 := by
  rintro ⟨m, hm, -, -⟩
  simp [pass_rate, series_mean, derive_test_result_passed] at hm

theorem sum_le_length_of_forall_le_one (xs : List Nat)
    (h : ∀ x ∈ xs, x ≤ 1) : xs.sum ≤ xs.length := by
  induction xs with
  | nil => simp
  | cons x rest ih =>
    simp only [List.sum_cons, List.length_cons]
    have hx := h x (List.mem_cons_self x rest)
    have hr := ih fun y hy => h y (List.mem_cons_of_mem x hy)
    omega

/-- Claim C10 (amended): for every nonempty table the pass rate is a
defined rational in [0, 1]; on the empty table the mean is NaN. -/
theorem C10_pass_rate_in_unit_interval (t : List Row) (h : t ≠ []) :
    ∃ m : Rat, pass_rate t = some m ∧ 0 ≤ m ∧ m ≤ 1 := by
  have hne : derive_test_result_passed t ≠ [] := by
    simpa [derive_test_result_passed] using h
  have hlen : 0 < (derive_test_result_passed t).length :=
    List.length_pos.mpr hne
  have hle : (derive_test_result_passed t).sum ≤
      (derive_test_result_passed t).length := by
    refine sum_le_length_of_forall_le_one _ fun x hx => ?_
    simp only [derive_test_result_passed, List.mem_map] at hx
    obtain ⟨r, -, hr⟩ := hx
    simp only [← hr, test_result_passed]
    split <;> omega
  refine ⟨((derive_test_result_passed t).sum : Rat) /
      ((derive_test_result_passed t).length : Rat), ?_, ?_, ?_⟩
  · simp [pass_rate, series_mean, List.isEmpty_iff, hne]
  · positivity
  · rw [div_le_one (by exact_mod_cast hlen)]
    exact_mod_cast hle

/-- Fixture for C10: a one-row table. -/
def exC10 : List Row := [mkRow 91 9 20220601 "P"]

/-- Witness for C10 at the concrete one-row table. -/
theorem C10_witness :
    exC10 ≠ ([] : List Row) ∧
      ∃ m : Rat, pass_rate exC10 = some m ∧ 0 ≤ m ∧ m ≤ 1 :=
  ⟨by decide, C10_pass_rate_in_unit_interval exC10 (by decide)⟩

end MOT
